import Mathlib

/-!
Shallow embedding of the `cid` library (src/src/cid/__init__.py): checksum
validation and gender/birthday/region extraction for Chinese identity-card
numbers.  Python strings are `String`, Python exceptions are the `PyError`
type, fallible operations return `Except PyError _`, and the region table
of `IdParser` is modelled with an explicit heap of records so that the
copy-on-lookup behaviour (`dict.copy`) is observable.
-/

/-- Python exception kinds that the embedded code can raise. -/
inductive PyError where
  | valueError
  | indexError
  | typeError
  | keyError (key : String)
  | idParserError (msg : String)
deriving DecidableEq, Repr

/-- Python `int(c)` on a one-character string: a decimal digit converts,
anything else raises `ValueError` (modelled as `none`). -/
def pyInt1 (c : Char) : Option Nat :=
  if c.isDigit then some (c.toNat - 48) else none

/-- Python slice `s[a:b]` for `0 ≤ a ≤ b`: clamped, never raises. -/
def pySlice (s : String) (a b : Nat) : String :=
  String.mk ((s.toList.drop a).take (b - a))

/-- Python index `s[i]` for `i ≥ 0`: `none` models `IndexError`. -/
def pyCharAt (s : String) (i : Nat) : Option Char :=
  s.toList[i]?

/-- The fixed weight vector of `is_valid_cid` (variable `salt` in the source). -/
def salt : List Nat := [7, 9, 10, 5, 8, 4, 2, 1, 6, 3, 7, 9, 10, 5, 8, 4, 2]

/-- The fixed checksum lookup string of `is_valid_cid`. -/
def check_code : String := "10X98765432"

/-- Python `sum(map(lambda x: int(x[0]) * x[1], pairs))`: left-to-right,
raising `ValueError` (modelled as `none`) at the first non-digit. -/
def intMulTerms : List (Char × Nat) → Option (List Nat)
  | [] => some []
  | p :: rest =>
    match pyInt1 p.1 with
    | none => none
    | some n =>
      match intMulTerms rest with
      | none => none
      | some l => some (n * p.2 :: l)

/-- Embedding of `is_valid_cid` (src/src/cid/__init__.py lines 40-46):
length below 18 is unconditionally valid; otherwise the weighted sum of the
first 17 digits mod 11 indexes `check_code`, which must equal character 17. -/
def is_valid_cid (cid : String) : Except PyError Bool :=
  if cid.length < 18 then
    Except.ok true
  else
    match intMulTerms ((cid.toList.take 17).zip salt) with
    | none => Except.error PyError.valueError
    | some terms =>
      match pyCharAt check_code (terms.sum % 11) with
      | none => Except.error PyError.indexError
      | some ch =>
        match pyCharAt cid 17 with
        | none => Except.error PyError.indexError
        | some c17 => Except.ok (ch == c17)

/-- Embedding of `extract_gender`: reads `cid[16]` when the length is 18,
otherwise `cid[14]`; odd digit is male (男), even digit is female (女). -/
def extract_gender (cid : String) : Except PyError String :=
  match pyCharAt cid (if cid.length = 18 then 16 else 14) with
  | none => Except.error PyError.indexError
  | some c =>
    match pyInt1 c with
    | none => Except.error PyError.valueError
    | some n => Except.ok (if n % 2 = 1 then "男" else "女")

/-- Embedding of `extract_birthday`.  The length-18 branch slices
`cid[6:10]`, `cid[10:12]`, `cid[12:14]`.  The other branch of the source
evaluates `cid['6:8']` — indexing a string with a string — which raises
`TypeError` in Python before the format string is applied. -/
def extract_birthday (cid : String) : Except PyError String :=
  if cid.length = 18 then
    Except.ok (pySlice cid 6 10 ++ "-" ++ pySlice cid 10 12 ++ "-" ++ pySlice cid 12 14)
  else
    Except.error PyError.typeError

/-- A region record: a Python dict with string keys and values, kept as an
ordered association list (keys unique in any dict arising from the code). -/
abbrev Record := List (String × String)

/-- Python `d.pop(k)` on a dict, key-removal part: drops the entry for `k`. -/
def Record.eraseKey (d : Record) (k : String) : Record :=
  d.filter (fun p => p.1 != k)

/-- Whether a dict has key `k` (so `d.pop(k)` succeeds rather than raising). -/
def Record.hasKey (d : Record) (k : String) : Bool :=
  (d.lookup k).isSome

/-- The state of an `IdParser`: `info_dict` maps 6-character region codes to
heap addresses, and the heap stores the actual dict objects, so that
`dict.copy` versus aliasing is observable. -/
structure IdParserState where
  info_dict : List (String × Nat)
  heap : List Record
deriving DecidableEq, Repr

/-- Overwrite the record object at address `a` (a mutation of that dict). -/
def setRecord (s : IdParserState) (a : Nat) (r : Record) : IdParserState :=
  { s with heap := s.heap.set a r }

/-- Every address stored in `info_dict` points into the heap. -/
def WF (s : IdParserState) : Prop :=
  ∀ p ∈ s.info_dict, p.2 < s.heap.length

/-- Embedding of `IdParser.extract_region` (lines 103-123): look up
`cid[:6]` in `info_dict` (a `KeyError` is turned into
`IdParserError('ID Error')`), copy the found dict to a fresh address, then
`pop('id')` on the copy, returning the fresh address. -/
def extract_region (s : IdParserState) (cid : String) :
    Except PyError Nat × IdParserState :=
  match s.info_dict.lookup (pySlice cid 0 6) with
  | none => (Except.error (PyError.idParserError "ID Error"), s)
  | some a =>
    match s.heap[a]? with
    | none => (Except.error PyError.indexError, s)
    | some d =>
      let s1 : IdParserState := { s with heap := s.heap ++ [d] }
      if Record.hasKey d "id" then
        (Except.ok s.heap.length,
         setRecord s1 s.heap.length (Record.eraseKey d "id"))
      else
        (Except.error (PyError.keyError "id"), s1)

/-- The record built by `IdParser.parse`. -/
structure ParseResult where
  gender : String
  birthday : String
  region : Nat
deriving DecidableEq, Repr

/-- Embedding of `IdParser.parse` (lines 125-144): builds the result dict
from `extract_gender`, `extract_birthday` and `extract_region`, in the
evaluation order of the Python dict literal, propagating the first error. -/
def parse (s : IdParserState) (cid : String) :
    Except PyError ParseResult × IdParserState :=
  match extract_gender cid with
  | Except.error e => (Except.error e, s)
  | Except.ok g =>
    match extract_birthday cid with
    | Except.error e => (Except.error e, s)
    | Except.ok b =>
      match extract_region s cid with
      | (Except.error e, s2) => (Except.error e, s2)
      | (Except.ok a, s2) => (Except.ok ⟨g, b, a⟩, s2)

/-- The weighted checksum sum of the first 17 characters, as the spec
describes it (digit value of `cid[i]` times the weight at `i`). -/
def cidWeightedSum (cid : String) : Nat :=
  (((cid.toList.take 17).zip salt).map (fun p => (p.1.toNat - 48) * p.2)).sum

/-- A one-row region table matching the documented example row for code
360730 (江西省 赣州市 宁都县), used as a concrete resolver state. -/
def sampleRow : Record :=
  [("id", "360730"), ("province", "江西省"), ("city", "赣州市"), ("district", "宁都县")]

/-- A concrete `IdParser` state holding `sampleRow` at address 0. -/
def sampleState : IdParserState :=
  { info_dict := [("360730", 0)], heap := [sampleRow] }

deriving instance DecidableEq for Except

/-- A successful association-list lookup exhibits a member of the list. -/
theorem lookup_mem_of_eq_some {α β : Type} [BEq α] [LawfulBEq α] {l : List (α × β)}
    {k : α} {v : β} (h : l.lookup k = some v) : (k, v) ∈ l := by
  induction l with
  | nil => simp [List.lookup] at h
  | cons p t ih =>
    obtain ⟨a, b⟩ := p
    cases hk : k == a with
    | false =>
      rw [List.lookup, hk] at h
      exact List.mem_cons_of_mem _ (ih h)
    | true =>
      have hka : k = a := eq_of_beq hk
      rw [List.lookup, hk] at h
      cases h
      subst hka
      exact List.mem_cons_self _ _

/-- Setting the element just past a list overwrites the appended singleton. -/
theorem set_append_length {α : Type} (l : List α) (x y : α) :
    (l ++ [x]).set l.length y = l ++ [y] := by
  induction l with
  | nil => rfl
  | cons a t ih => simp [ih]

/-- `intMulTerms` succeeds on all-digit input and produces the weighted terms. -/
theorem intMulTerms_digits (l : List (Char × Nat)) (h : ∀ p ∈ l, p.1.isDigit = true) :
    intMulTerms l = some (l.map (fun p => (p.1.toNat - 48) * p.2)) := by
  induction l with
  | nil => rfl
  | cons p t ih =>
    have hp : p.1.isDigit = true := h p (List.mem_cons_self _ _)
    have ht : ∀ q ∈ t, q.1.isDigit = true := fun q hq => h q (List.mem_cons_of_mem _ hq)
    simp [intMulTerms, pyInt1, hp, ih ht]

/-- C6: every string shorter than 18 characters is accepted by `is_valid_cid`
unconditionally, with no exception and no inspection of its characters. -/
theorem is_valid_cid_short (cid : String) (h : cid.length < 18) :
    is_valid_cid cid = Except.ok true := by
  unfold is_valid_cid
  rw [if_pos h]

/-- Witness for C6 at a 15-character string made of non-digit letters. -/
theorem is_valid_cid_short_witness :
    "ABCDEFGHIJKLMNO".length < 18 ∧ is_valid_cid "ABCDEFGHIJKLMNO" = Except.ok true :=
  ⟨by decide, is_valid_cid_short "ABCDEFGHIJKLMNO" (by decide)⟩

/-- C9: on every 18-character string, `extract_birthday` returns the pure
slice concatenation `cid[6:10] ++ "-" ++ cid[10:12] ++ "-" ++ cid[12:14]`. -/
theorem extract_birthday_18 (cid : String) (h : cid.length = 18) :
    extract_birthday cid =
      Except.ok (pySlice cid 6 10 ++ "-" ++ pySlice cid 10 12 ++ "-" ++ pySlice cid 12 14) := by
  unfold extract_birthday
  rw [if_pos h]

/-- Witness for C9: the documented example value. -/
theorem extract_birthday_18_witness :
    "360730198601011111".length = 18 ∧
      extract_birthday "360730198601011111" = Except.ok "1986-01-01" := by
  refine ⟨by decide, ?_⟩
  rw [extract_birthday_18 "360730198601011111" (by decide)]
  decide

/-- C2 (code bug): on the legacy 15-digit identifier whose embedded birth
digits are 86/01/01, `extract_birthday` evaluates `cid['6:8']` and raises
`TypeError` instead of returning "1986-01-01". -/
theorem extract_birthday_legacy_typeerror :
    extract_birthday "360730860101111" = Except.error PyError.typeError := by
  decide

/-- C10: `extract_region` depends only on the first six characters of the
identifier — equal 6-character prefixes give identical results. -/
theorem extract_region_prefix_only (s : IdParserState) (cid1 cid2 : String)
    (h : pySlice cid1 0 6 = pySlice cid2 0 6) :
    extract_region s cid1 = extract_region s cid2 := by
  unfold extract_region
  rw [h]

/-- Witness for C10: an 18-character and a 15-character identifier sharing
the prefix 360730 resolve identically. -/
theorem extract_region_prefix_only_witness :
    pySlice "360730198601011111" 0 6 = pySlice "360730000000000" 0 6 ∧
      extract_region sampleState "360730198601011111" =
        extract_region sampleState "360730000000000" :=
  ⟨by decide,
   extract_region_prefix_only sampleState "360730198601011111" "360730000000000" (by decide)⟩

/-- C4 (amended): a region code absent from the table makes `extract_region`
fail with `IdParserError` and the fixed message "ID Error" (which does not
carry the offending code), leaving the resolver state unchanged. -/
theorem extract_region_missing_code (s : IdParserState) (cid : String)
    (h : s.info_dict.lookup (pySlice cid 0 6) = none) :
    extract_region s cid = (Except.error (PyError.idParserError "ID Error"), s) := by
  unfold extract_region
  rw [h]

/-- Witness for the amended C4 at a concrete absent code. -/
theorem extract_region_missing_code_witness :
    sampleState.info_dict.lookup (pySlice "000000198601011111" 0 6) = none ∧
      extract_region sampleState "000000198601011111" =
        (Except.error (PyError.idParserError "ID Error"), sampleState) :=
  ⟨by decide, extract_region_missing_code sampleState "000000198601011111" (by decide)⟩

/-- Counterexample to C4 as stated: the error raised for the absent code
000000 is `IdParserError` with the constant payload "ID Error", and the
offending region code does not occur in that payload. -/
theorem extract_region_error_payload_cex :
    extract_region sampleState "000000198601011111" =
      (Except.error (PyError.idParserError "ID Error"), sampleState) ∧
    ¬ List.IsInfix (pySlice "000000198601011111" 0 6).toList "ID Error".toList := by
  exact ⟨by decide, by decide⟩

/-- C8: `extract_gender` reads the digit at index 16 of an 18-character
identifier and at index 14 of a 15-character one, answering 男 (male) for an
odd digit and 女 (female) for an even one. -/
theorem extract_gender_parity (cid : String) (c : Char)
    (h : (cid.length = 18 ∧ pyCharAt cid 16 = some c) ∨
         (cid.length = 15 ∧ pyCharAt cid 14 = some c))
    (hc : c.isDigit = true) :
    extract_gender cid =
      Except.ok (if (c.toNat - 48) % 2 = 1 then "男" else "女") := by
  unfold extract_gender
  rcases h with ⟨hl, hch⟩ | ⟨hl, hch⟩ <;> simp [hl, hch, pyInt1, hc]

/-- Witness for C8 at the documented example, whose index-16 digit is odd. -/
theorem extract_gender_parity_witness :
    pyCharAt "360730198601011111" 16 = some '1' ∧
      extract_gender "360730198601011111" = Except.ok "男" := by
  refine ⟨by decide, ?_⟩
  rw [extract_gender_parity "360730198601011111" '1'
        (Or.inl ⟨by decide, by decide⟩) (by decide)]
  decide

/-- The state after `extract_region sampleState` has copied and stripped the
sample row onto a fresh heap address. -/
def sampleStateAfter : IdParserState :=
  { info_dict := [("360730", 0)],
    heap := [sampleRow,
             [("province", "江西省"), ("city", "赣州市"), ("district", "宁都县")]] }

/-- C5: `parse` assembles exactly the results of `extract_gender`,
`extract_birthday` and `extract_region`, and involves no checksum
validation — the example identifier fails `is_valid_cid` yet parses. -/
theorem parse_combines (s : IdParserState) (cid : String) (g b : String)
    (a : Nat) (s2 : IdParserState)
    (hg : extract_gender cid = Except.ok g)
    (hb : extract_birthday cid = Except.ok b)
    (hr : extract_region s cid = (Except.ok a, s2)) :
    parse s cid = (Except.ok ⟨g, b, a⟩, s2) ∧
    is_valid_cid "360730198601011111" = Except.ok false ∧
    (parse sampleState "360730198601011111").1 =
      Except.ok ⟨"男", "1986-01-01", 1⟩ := by
  refine ⟨?_, by decide, by decide⟩
  unfold parse
  rw [hg, hb, hr]

/-- Witness for C5: the example identifier on the sample resolver state. -/
theorem parse_combines_witness :
    extract_gender "360730198601011111" = Except.ok "男" ∧
    extract_birthday "360730198601011111" = Except.ok "1986-01-01" ∧
    extract_region sampleState "360730198601011111" = (Except.ok 1, sampleStateAfter) ∧
    parse sampleState "360730198601011111" =
      (Except.ok ⟨"男", "1986-01-01", 1⟩, sampleStateAfter) :=
  ⟨by decide, by decide, by decide,
   (parse_combines sampleState "360730198601011111" "男" "1986-01-01" 1 sampleStateAfter
     (by decide) (by decide) (by decide)).1⟩

/-- C1: for an 18-character identifier whose first 17 characters are decimal
digits, `is_valid_cid` answers true exactly when `check_code` indexed by the
weighted digit sum mod 11 equals character 17 of the identifier. -/
theorem is_valid_cid_checksum_iff (cid : String) (hlen : cid.length = 18)
    (hdig : ∀ c ∈ cid.toList.take 17, c.isDigit = true) :
    (is_valid_cid cid = Except.ok true ↔
      pyCharAt check_code (cidWeightedSum cid % 11) = pyCharAt cid 17) := by
  have hnot : ¬ cid.length < 18 := by omega
  have hzip : ∀ p ∈ (cid.toList.take 17).zip salt, p.1.isDigit = true := by
    intro p hp
    exact hdig p.1 (List.of_mem_zip hp).1
  have hterms := intMulTerms_digits _ hzip
  have hsum : (((cid.toList.take 17).zip salt).map (fun p => (p.1.toNat - 48) * p.2)).sum
      = cidWeightedSum cid := rfl
  have hccl : check_code.toList.length = 11 := by decide
  have hidx : cidWeightedSum cid % 11 < check_code.toList.length := by
    rw [hccl]
    exact Nat.mod_lt _ (by norm_num)
  have hlist : cid.toList.length = 18 := hlen
  have h17 : (17 : Nat) < cid.toList.length := by omega
  obtain ⟨ch, hch⟩ : ∃ x, check_code.toList[cidWeightedSum cid % 11]? = some x :=
    ⟨_, List.getElem?_eq_getElem hidx⟩
  obtain ⟨c17, hc17⟩ : ∃ x, cid.toList[(17 : Nat)]? = some x :=
    ⟨_, List.getElem?_eq_getElem h17⟩
  simp only [is_valid_cid, pyCharAt, if_neg hnot, hterms, hsum, hch, hc17]
  simp [beq_iff_eq]

/-- Witness for C1 at a checksum-correct all-digit identifier. -/
theorem is_valid_cid_checksum_iff_witness :
    "360730198601011114".length = 18 ∧
      (is_valid_cid "360730198601011114" = Except.ok true ↔
        pyCharAt check_code (cidWeightedSum "360730198601011114" % 11) =
          pyCharAt "360730198601011114" 17) :=
  ⟨by decide, is_valid_cid_checksum_iff "360730198601011114" (by decide) (by decide)⟩

/-- C7: take a checksum-valid 18-character identifier with digit prefix and
replace its last character by any character of the checksum alphabet other
than the expected check character: `is_valid_cid` then answers false. -/
theorem is_valid_cid_flip_last (cid : String) (c : Char)
    (hlen : cid.length = 18)
    (hdig : ∀ ch ∈ cid.toList.take 17, ch.isDigit = true)
    (hvalid : is_valid_cid cid = Except.ok true)
    (halpha : c ∈ "0123456789X".toList)
    (hne : some c ≠ pyCharAt check_code (cidWeightedSum cid % 11)) :
    is_valid_cid (String.mk (cid.toList.take 17 ++ [c])) = Except.ok false := by
  clear hvalid halpha
  have hlist : cid.toList.length = 18 := hlen
  have hl17 : (cid.toList.take 17).length = 17 := by
    rw [List.length_take]
    omega
  have htl : (String.mk (cid.toList.take 17 ++ [c])).toList
      = cid.toList.take 17 ++ [c] := rfl
  have hlen2 : (String.mk (cid.toList.take 17 ++ [c])).length = 18 := by
    show (cid.toList.take 17 ++ [c]).length = 18
    rw [List.length_append, hl17]
    rfl
  have hnot : ¬ (String.mk (cid.toList.take 17 ++ [c])).length < 18 := by omega
  have hzip : ∀ p ∈ (cid.toList.take 17).zip salt, p.1.isDigit = true := by
    intro p hp
    exact hdig p.1 (List.of_mem_zip hp).1
  have hterms := intMulTerms_digits _ hzip
  have hsum : (((cid.toList.take 17).zip salt).map (fun p => (p.1.toNat - 48) * p.2)).sum
      = cidWeightedSum cid := rfl
  have hccl : check_code.toList.length = 11 := by decide
  have hidx : cidWeightedSum cid % 11 < check_code.toList.length := by
    rw [hccl]
    exact Nat.mod_lt _ (by norm_num)
  obtain ⟨ch, hch⟩ : ∃ x, check_code.toList[cidWeightedSum cid % 11]? = some x :=
    ⟨_, List.getElem?_eq_getElem hidx⟩
  have hne2 : some c ≠ some ch := by
    rw [← hch]
    exact hne
  have hnec : ch ≠ c := fun he => hne2 (by rw [he])
  have hbeq : (ch == c) = false := beq_eq_false_iff_ne.mpr hnec
  generalize hgen : cid.toList.take 17 = l at hl17 htl hnot hterms hsum ⊢
  have htake : (l ++ [c]).take 17 = l := by
    conv_lhs => rw [← hl17]
    exact List.take_left _ _
  have hlast : (l ++ [c])[(17 : Nat)]? = some c := by
    rw [← hl17]
    exact List.getElem?_concat_length _ _
  simp only [is_valid_cid, pyCharAt, if_neg hnot, htl, htake, hterms, hsum, hch, hlast, hbeq]

/-- Witness for C7: flipping the valid check digit 4 to 5 is rejected. -/
theorem is_valid_cid_flip_last_witness :
    is_valid_cid "360730198601011114" = Except.ok true ∧
      is_valid_cid (String.mk ("360730198601011114".toList.take 17 ++ ['5'])) =
        Except.ok false :=
  ⟨by decide,
   is_valid_cid_flip_last "360730198601011114" '5' (by decide) (by decide) (by decide)
     (by decide) (by decide)⟩

/-- C3: when the 6-character prefix is in the table, `extract_region`
returns a fresh copy of the table row with the primary-key field "id"
removed, and mutating that returned record arbitrarily leaves the result of
a repeated `extract_region` call for the same code unchanged. -/
theorem extract_region_fresh_copy (s : IdParserState) (cid : String)
    (a : Nat) (d : Record) (r2 : Record)
    (hwf : WF s)
    (hl : s.info_dict.lookup (pySlice cid 0 6) = some a)
    (hd : s.heap[a]? = some d)
    (hid : Record.hasKey d "id" = true) :
    extract_region s cid =
      (Except.ok s.heap.length,
       { info_dict := s.info_dict, heap := s.heap ++ [Record.eraseKey d "id"] }) ∧
    (extract_region
        (setRecord { info_dict := s.info_dict, heap := s.heap ++ [Record.eraseKey d "id"] }
          s.heap.length r2) cid).1 = Except.ok (s.heap.length + 1) ∧
    (extract_region
        (setRecord { info_dict := s.info_dict, heap := s.heap ++ [Record.eraseKey d "id"] }
          s.heap.length r2) cid).2.heap[s.heap.length + 1]? =
      some (Record.eraseKey d "id") := by
  have ha : a < s.heap.length := hwf (pySlice cid 0 6, a) (lookup_mem_of_eq_some hl)
  have hmut : setRecord { info_dict := s.info_dict, heap := s.heap ++ [Record.eraseKey d "id"] }
      s.heap.length r2 = { info_dict := s.info_dict, heap := s.heap ++ [r2] } := by
    simp only [setRecord, set_append_length]
  have hlook2 : (s.heap ++ [r2])[a]? = some d := by
    rw [List.getElem?_append_left ha]
    exact hd
  have hlen2 : (s.heap ++ [r2]).length = s.heap.length + 1 := by
    rw [List.length_append]
    rfl
  have hregion2 : extract_region { info_dict := s.info_dict, heap := s.heap ++ [r2] } cid =
      (Except.ok (s.heap.length + 1),
       { info_dict := s.info_dict,
         heap := (s.heap ++ [r2]) ++ [Record.eraseKey d "id"] }) := by
    simp only [extract_region, hl, hlook2, hid, if_pos, setRecord, set_append_length]
    rw [hlen2]
  refine ⟨?_, ?_, ?_⟩
  · simp only [extract_region, hl, hd, hid, if_pos, setRecord, set_append_length]
  · rw [hmut, hregion2]
  · rw [hmut, hregion2]
    show ((s.heap ++ [r2]) ++ [Record.eraseKey d "id"])[s.heap.length + 1]? =
      some (Record.eraseKey d "id")
    rw [← hlen2]
    exact List.getElem?_concat_length _ _

/-- Witness for C3 on the sample state, with a concrete overwriting record. -/
theorem extract_region_fresh_copy_witness :
    extract_region sampleState "360730198601011111" =
      (Except.ok sampleState.heap.length,
       { info_dict := sampleState.info_dict,
         heap := sampleState.heap ++ [Record.eraseKey sampleRow "id"] }) ∧
    (extract_region
        (setRecord
          { info_dict := sampleState.info_dict,
            heap := sampleState.heap ++ [Record.eraseKey sampleRow "id"] }
          sampleState.heap.length [("province", "HACK")]) "360730198601011111").1 =
      Except.ok (sampleState.heap.length + 1) ∧
    (extract_region
        (setRecord
          { info_dict := sampleState.info_dict,
            heap := sampleState.heap ++ [Record.eraseKey sampleRow "id"] }
          sampleState.heap.length [("province", "HACK")]) "360730198601011111").2.heap[
      sampleState.heap.length + 1]? = some (Record.eraseKey sampleRow "id") :=
  extract_region_fresh_copy sampleState "360730198601011111" 0 sampleRow
    [("province", "HACK")] (by unfold WF; decide) (by decide) (by decide) (by decide)
